import Mathlib

/-!
Verification development for the car-listings dashboard (src/dash3.py).

The file shallowly embeds the data ingestion and normalization pipeline
(`load_data`) and the equality-filter stage (`apply_filters`) of the
repository, and proves or refutes the frozen claims about them.

Modelling conventions:
* JSON payloads are an inductive `Json` (numbers are modelled as integers;
  the claims only exercise integer and string payloads).
* A pandas cell is an inductive `Cell`.  `Cell.int` models an int64 cell,
  `Cell.float` models a float64 cell holding an exact integer (pandas
  renders it with a trailing ".0"), `Cell.nan` models NaN/NaT, `Cell.na`
  models pd.NA.
* `astype(str)` is `cellChars`, producing the Python `str()` rendering as a
  list of characters.
* Errors reported through `st.error` are made explicit: the embedded
  `load_data` returns the DataFrame together with an `Option AppError`.
-/

namespace Dash3

/-- A JSON value, as produced by `response.json()`. -/
inductive Json where
  | null
  | bool (b : Bool)
  | num (n : Int)
  | str (s : String)
  | arr (elems : List Json)
  | obj (fields : List (String × Json))

/-- A calendar date, the payload of a pandas Timestamp as far as the
claims are concerned. -/
structure Date where
  year : Nat
  month : Nat
  day : Nat
deriving DecidableEq

/-- One pandas cell. -/
inductive Cell where
  | str (s : String)
  | int (n : Int)
  | float (n : Int)
  | nan
  | na
  | bool (b : Bool)
  | null
  | timestamp (d : Date)
deriving DecidableEq

/-- The character for the decimal digit `n` (for `n < 10`). -/
def digitChar (n : Nat) : Char := Char.ofNat (48 + n)

/-- Decimal rendering of a natural number, fuel-driven so that it is
structural and kernel-evaluable.  `renderNat` supplies enough fuel. -/
def renderNatAux : Nat → Nat → List Char
  | 0, _ => []
  | fuel + 1, n =>
    if n < 10 then [digitChar n]
    else renderNatAux fuel (n / 10) ++ [digitChar (n % 10)]

/-- Decimal rendering of a natural number (Python `str`). -/
def renderNat (n : Nat) : List Char := renderNatAux (n + 1) n

/-- Decimal rendering of an integer (Python `str`). -/
def intChars (n : Int) : List Char :=
  if n < 0 then '-' :: renderNat n.natAbs else renderNat n.toNat

/-- Parse a run of decimal digits, most significant first, onto an
accumulator (the value of `int(...)` on a digit string). -/
def natOfDigitsAux (acc : Nat) : List Char → Nat
  | [] => acc
  | c :: cs => natOfDigitsAux (acc * 10 + (c.toNat - 48)) cs

/-- Python-style rendering of a JSON value, used for nested structures
stored verbatim in object-dtype cells.  Fuel-driven so the definition is
structural and executable. -/
def jsonReprFuel : Nat → Json → String
  | _, .null => "None"
  | _, .bool true => "True"
  | _, .bool false => "False"
  | _, .num n => String.mk (intChars n)
  | _, .str s => s
  | 0, .arr _ => "[...]"
  | fuel + 1, .arr xs =>
      "[" ++ String.intercalate ", " (xs.map (jsonReprFuel fuel)) ++ "]"
  | 0, .obj _ => "\x7b...\x7d"
  | fuel + 1, .obj fs =>
      "\x7b" ++
        String.intercalate ", " (fs.map (fun f => f.1 ++ ": " ++ jsonReprFuel fuel f.2)) ++
        "\x7d"

/-- Python-style rendering of a JSON value.  The constant fuel exceeds
the nesting depth of any payload a claim exercises (no claim inspects
the rendering of nested structures at all). -/
def jsonRepr (j : Json) : String := jsonReprFuel 1000000 j

/-- The cell stored for one JSON scalar when a DataFrame is built.
Nested sequences/mappings are kept as their textual rendering (they are
opaque object cells; no claim inspects them structurally). -/
def jsonToCell : Json → Cell
  | .null => Cell.null
  | .bool b => Cell.bool b
  | .num n => Cell.int n
  | .str s => Cell.str s
  | .arr xs => Cell.str (jsonRepr (.arr xs))
  | .obj fs => Cell.str (jsonRepr (.obj fs))

/-- `str()` rendering of a cell, as `astype(str)` produces it:
int64 prints its digits, float64 prints a trailing ".0", NaN prints
"nan", pd.NA prints "<NA>", None prints "None". -/
def cellChars : Cell → List Char
  | .str s => s.data
  | .int n => intChars n
  | .float n => intChars n ++ ['.', '0']
  | .nan => ['n', 'a', 'n']
  | .na => ['<', 'N', 'A', '>']
  | .bool true => ['T', 'r', 'u', 'e']
  | .bool false => ['F', 'a', 'l', 's', 'e']
  | .null => ['N', 'o', 'n', 'e']
  | .timestamp d =>
      renderNat d.year ++ ['-'] ++ renderNat d.month ++ ['-'] ++ renderNat d.day

/-- The per-cell numeric coercion of `load_data`:
`astype(str)` then `str.replace(r'[^0-9]', '')` then `replace('', pd.NA)`
then `pd.to_numeric(..., errors='coerce')`.  An empty digit run is
missing; otherwise the concatenated digit run parses as an integer. -/
def cleanNumericCell (c : Cell) : Option Nat :=
  match (cellChars c).filter Char.isDigit with
  | [] => none
  | cs => some (natOfDigitsAux 0 cs)

/-- Column-level `pd.to_numeric(..., errors='coerce')` on the cleaned
digit strings, including pandas dtype promotion: a column with no
missing entry becomes int64, a column with a missing entry becomes
float64 (numbers as integer-valued floats, missing as NaN). -/
def toNumericCol (cells : List Cell) : List Cell :=
  if (cells.map cleanNumericCell).all Option.isSome then
    (cells.map cleanNumericCell).map (fun o => Cell.int ((o.getD 0 : Nat) : Int))
  else
    (cells.map cleanNumericCell).map (fun o =>
      match o with
      | some n => Cell.float ((n : Nat) : Int)
      | none => Cell.nan)

/-- Split a character list on the dash separator. -/
def splitDash : List Char → List Char → List (List Char)
  | [], acc => [acc.reverse]
  | c :: rest, acc =>
      if c = '-' then acc.reverse :: splitDash rest []
      else splitDash rest (c :: acc)

/-- All characters are decimal digits. -/
def allDigits (cs : List Char) : Bool := cs.all Char.isDigit

/-- Shallow model of the permissive format inference of
`pd.to_datetime(..., errors='coerce')` on a string: an ISO-like
`YYYY-MM-DD` value with in-range month and day parses; anything else is
missing.  The inference details are irrelevant to the claims; what
matters is that the parser is a total function into valid dates or
`none`. -/
def parseYMD (y m d : List Char) : Option Date :=
  if y ≠ [] ∧ m ≠ [] ∧ d ≠ [] ∧ allDigits y ∧ allDigits m ∧ allDigits d then
    if 1 ≤ natOfDigitsAux 0 m ∧ natOfDigitsAux 0 m ≤ 12 ∧
        1 ≤ natOfDigitsAux 0 d ∧ natOfDigitsAux 0 d ≤ 31 then
      some ⟨natOfDigitsAux 0 y, natOfDigitsAux 0 m, natOfDigitsAux 0 d⟩
    else none
  else none

def parseDate (s : String) : Option Date :=
  match splitDash s.data [] with
  | [y, m, d] => parseYMD y m d
  | _ => none

/-- The per-cell datetime coercion of `load_data`
(`pd.to_datetime(..., errors='coerce')`): existing timestamps pass
through, strings parse or become missing, everything else becomes
missing.  (Numeric epoch interpretation is collapsed to missing; no
claim exercises it and either way the cell is a timestamp or missing.) -/
def toDatetimeCell : Cell → Cell
  | .timestamp d => .timestamp d
  | .str s =>
      match parseDate s with
      | some d => .timestamp d
      | none => .nan
  | _ => .nan

/-- A pandas DataFrame: named columns and row-major cells.  Every row is
intended to have exactly `cols.length` cells (`DataFrame.Wf`). -/
structure DataFrame where
  cols : List String
  rows : List (List Cell)
deriving DecidableEq

/-- `pd.DataFrame()`. -/
def emptyDF : DataFrame := ⟨[], []⟩

/-- Well-formedness: each row is as wide as the column list. -/
def DataFrame.Wf (df : DataFrame) : Prop :=
  ∀ r ∈ df.rows, r.length = df.cols.length

/-- Index of a column name in a column list (first occurrence). -/
def colIdx : List String → String → Option Nat
  | [], _ => none
  | c0 :: rest, c =>
      if c0 = c then some 0 else (colIdx rest c).map (· + 1)

/-- The cells of one column, top to bottom ([] when the column is
absent). -/
def getCol (df : DataFrame) (c : String) : List Cell :=
  match colIdx df.cols c with
  | none => []
  | some i => df.rows.map (fun r => r.getD i Cell.nan)

/-- Replace one column by a function of its cells; identity when the
column is absent (mirrors `if col in df.columns`). -/
def updateCol (df : DataFrame) (c : String) (f : List Cell → List Cell) : DataFrame :=
  match colIdx df.cols c with
  | none => df
  | some i =>
      ⟨df.cols,
        (df.rows.zip (f (df.rows.map (fun r => r.getD i Cell.nan)))).map
          (fun p => p.1.set i p.2)⟩

/-- The normalization steps of `load_data`: numeric coercion of `Km`,
`Prix`, `Mc` (each only when present), then datetime coercion of
`DateScraping` (when present). -/
def normalizeDF (df : DataFrame) : DataFrame :=
  updateCol
    (updateCol (updateCol (updateCol df "Km" toNumericCol) "Prix" toNumericCol)
      "Mc" toNumericCol)
    "DateScraping" (List.map toDatetimeCell)

/-- Last-binding lookup in a JSON object, matching Python dict
construction from JSON (a duplicate key keeps the last value). -/
def lookupField (fs : List (String × Json)) (k : String) : Option Json :=
  fs.foldl (fun acc kv => if kv.1 = k then some kv.2 else acc) none

def Json.isObj : Json → Bool
  | .obj _ => true
  | _ => false

def Json.isArr : Json → Bool
  | .arr _ => true
  | _ => false

/-- Neither a sequence nor a mapping. -/
def Json.isScalar (j : Json) : Bool := !j.isObj && !j.isArr

def Json.arrElems : Json → List Json
  | .arr xs => xs
  | _ => []

/-- Column names of `pd.DataFrame(list_of_records)`: the union of the
record keys in order of first appearance. -/
def recordKeys (xs : List Json) : List String :=
  xs.foldl
    (fun acc j =>
      match j with
      | .obj fs => fs.foldl (fun a kv => if kv.1 ∈ a then a else a ++ [kv.1]) acc
      | _ => acc)
    []

/-- The cell a record contributes at one column: its value there, NaN
when the key is absent. -/
def recordCell (j : Json) (c : String) : Cell :=
  match j with
  | .obj fs =>
      match lookupField fs c with
      | some v => jsonToCell v
      | none => Cell.nan
  | _ => Cell.nan

/-- One row of `pd.DataFrame(list_of_records)`. -/
def rowOfRecord (cols : List String) (j : Json) : List Cell :=
  cols.map (recordCell j)

/-- `pd.DataFrame` on a list whose elements are all records. -/
def recordsDF (xs : List Json) : DataFrame :=
  ⟨recordKeys xs, xs.map (rowOfRecord (recordKeys xs))⟩

/-- `pd.DataFrame` on a mapping whose values are all sequences of equal
length: keys become columns. -/
def columnarLen (fs : List (String × Json)) : Nat :=
  ((fs.head?).map (fun kv => kv.2.arrElems.length)).getD 0

def columnarDF (fs : List (String × Json)) : Except String DataFrame :=
  if fs.all (fun kv => decide (kv.2.arrElems.length = columnarLen fs)) then
    .ok ⟨fs.map Prod.fst,
      (List.range (columnarLen fs)).map
        (fun i => fs.map (fun kv => jsonToCell (kv.2.arrElems.getD i .null)))⟩
  else .error "ValueError: All arrays must be of the same length"

/-- The `pd.DataFrame(...)` constructor as `load_data` exercises it.
A list of records gives one row per record; a list of scalars gives a
single unnamed column; a mapping of equal-length sequences gives a
columnar table; `None` is the constructor's default `data` argument and
builds an empty frame without raising; any other scalar raises
`ValueError` (pandas: "DataFrame constructor not properly called!").
Mixed record/scalar lists and mappings with non-sequence values are
likewise modelled as constructor errors (pandas raises on the shapes
the claims exercise; scalar broadcast against sequences is out of the
claims' scope). -/
def pdDataFrame : Json → Except String DataFrame
  | .arr xs =>
      if xs.all Json.isObj then .ok (recordsDF xs)
      else if xs.all (fun j => !j.isObj) then
        .ok ⟨["0"], xs.map (fun j => [jsonToCell j])⟩
      else .error "TypeError: mixed mapping and scalar rows"
  | .obj fs =>
      if fs.all (fun kv => kv.2.isArr) then columnarDF fs
      else .error "ValueError: DataFrame constructor not properly called"
  | .null => .ok emptyDF
  | _ => .error "ValueError: DataFrame constructor not properly called"

/-- Errors surfaced through `st.error`: the first `except` clause
(requests.exceptions.RequestException) and the second (`Exception`). -/
inductive AppError where
  | fetchError (msg : String)
  | processingError (msg : String)
deriving DecidableEq

/-- The endpoint URL (fixed process configuration). -/
def LAMBDA_URL : String :=
  "https://w7e62hoex6.execute-api.us-east-1.amazonaws.com/prod/getScrapingData"

/-- The bounded request timeout passed to `requests.get`. -/
def REQUEST_TIMEOUT : Nat := 30

/-- Outcome of the single `requests.get(LAMBDA_URL, timeout=30)` call:
a transport failure, or a response with a status code and a body that
either parses as JSON or does not. -/
inductive FetchOutcome where
  | connError
  | timeoutExpired
  | response (status : Nat) (body : Option Json)

/-- Shape detection of `load_data`: a list is tabularized directly; a
mapping is tabularized at its `data` key when present and otherwise
wrapped as a one-record list; any other value selects nothing (the
`else: return pd.DataFrame()` branch). -/
def shapeSelect : Json → Option Json
  | .arr xs => some (.arr xs)
  | .obj fs =>
      match lookupField fs "data" with
      | some v => some v
      | none => some (.arr [.obj fs])
  | _ => none

/-- The body of `load_data` after a successful fetch and JSON parse:
shape detection, DataFrame construction, then normalization.  A
constructor failure is caught by `except Exception` and reported as a
processing error with an empty table. -/
def processBody (data : Json) : DataFrame × Option AppError :=
  match shapeSelect data with
  | none => (emptyDF, none)
  | some src =>
      match pdDataFrame src with
      | .ok df => (normalizeDF df, none)
      | .error e => (emptyDF, some (.processingError e))

/-- `load_data` (src/dash3.py lines 27-63), with the fetch outcome made
explicit.  Transport failures and non-success statuses
(`raise_for_status`, 4xx/5xx) are caught as `RequestException` and
reported as fetch errors; an unparsable body is caught and reported;
otherwise the parsed body is processed. -/
def load_data : FetchOutcome → DataFrame × Option AppError
  | .connError =>
      (emptyDF, some (.fetchError "ConnectionError"))
  | .timeoutExpired =>
      (emptyDF, some (.fetchError "ReadTimeout"))
  | .response status body =>
      if 400 ≤ status then (emptyDF, some (.fetchError "HTTPError"))
      else
        match body with
        | none => (emptyDF, some (.processingError "JSONDecodeError"))
        | some data => processBody data

/-- The target semantic type of `Km`, `Prix`, `Mc` after normalization:
a non-negative integer (int64 or integer-valued float64) or missing. -/
def NumericOrMissing : Cell → Prop
  | .int n => 0 ≤ n
  | .float n => 0 ≤ n
  | .nan => True
  | _ => False

/-- A calendar-valid date. -/
def dateValid (d : Date) : Prop :=
  1 ≤ d.month ∧ d.month ≤ 12 ∧ 1 ≤ d.day ∧ d.day ≤ 31

/-- The target semantic type of `DateScraping` after normalization: a
valid timestamp or missing. -/
def DateOrMissing : Cell → Prop
  | .timestamp d => dateValid d
  | .nan => True
  | _ => False

/-- No cell of the table is a timestamp (true of every freshly
constructed table: JSON has no timestamp scalars). -/
def DataFrame.NoTs (df : DataFrame) : Prop :=
  ∀ r ∈ df.rows, ∀ cell ∈ r, ∀ d, cell ≠ Cell.timestamp d

/-- Decidable form of "an int64 cell holding a natural number", used to
state idempotence hypotheses concretely. -/
def isIntCell : Cell → Bool
  | .int n => decide (0 ≤ n)
  | _ => false

/-- One sidebar selection: what each selectbox returned.  Options are
drawn from the column's values plus the no-filter entry "Tous". -/
structure FilterSelection where
  source : Cell
  transmission : Cell
  carburant : Cell
  statut : Cell
  marque : Cell
  etat : Cell
deriving DecidableEq

/-- The no-filter entry of every selectbox. -/
def tous : Cell := Cell.str "Tous"

/-- The row predicate of the equality mask `filtered_df[col] == v`. -/
def rowMatch (cols : List String) (col : String) (v : Cell) (r : List Cell) : Bool :=
  match colIdx cols col with
  | some i => decide (r.getD i Cell.nan = v)
  | none => false

/-- One filter application: `filtered_df = filtered_df[mask]`. -/
def filterEq (d : DataFrame) (col : String) (v : Cell) : DataFrame :=
  ⟨d.cols, d.rows.filter (rowMatch d.cols col v)⟩

/-- One sidebar filter (src/dash3.py lines 72-112): the selectbox exists
only when the column is present in the loaded table, and a selection
other than "Tous" filters by equality. -/
def filterStep (present : List String) (d : DataFrame) (col : String)
    (choice : Cell) : DataFrame :=
  if col ∈ present ∧ choice ≠ tous then filterEq d col choice else d

/-- `apply_filters` (src/dash3.py lines 65-116): six sequential equality
filters over Source, Transmission, Carburant, Statut, Marque, Etat; each
presence test is against the input table's columns. -/
def apply_filters (df : DataFrame) (sel : FilterSelection) : DataFrame :=
  filterStep df.cols
    (filterStep df.cols
      (filterStep df.cols
        (filterStep df.cols
          (filterStep df.cols
            (filterStep df.cols df "Source" sel.source)
            "Transmission" sel.transmission)
          "Carburant" sel.carburant)
        "Statut" sel.statut)
      "Marque" sel.marque)
    "Etat" sel.etat

/-- The selection with every selectbox on "Tous". -/
def allTous : FilterSelection := ⟨tous, tous, tous, tous, tous, tous⟩

/-- The six filterable columns. -/
def filterCols : List String :=
  ["Source", "Transmission", "Carburant", "Statut", "Marque", "Etat"]

/-- The `st.cache_data(ttl=300)` freshness window (5 minutes). -/
def CACHE_TTL : Nat := 300

/-- Modelled from the spec: the single-slot time-boxed result cache that
the `st.cache_data(ttl=300, show_spinner=False)` decorator (third-party
framework code, not part of this repository's sources) places in front
of `load_data`: one `(timestamp, result)` slot with a freshness check. -/
structure CacheState where
  slot : Option (Nat × (DataFrame × Option AppError))
deriving DecidableEq

/-- The cache before any call. -/
def emptyCache : CacheState := ⟨none⟩

/-- Modelled from the spec: `st.cache_data.clear()` (src/dash3.py line
324) empties the slot, so the next call re-fetches. -/
def clearCache (_c : CacheState) : CacheState := ⟨none⟩

/-- Modelled from the spec: one call of the cached `load_data` at time
`now`, with `o` the outcome the network would produce if contacted.
Returns the result, the new cache state, and whether a network attempt
was made: a slot younger than the freshness window is returned without
fetching; otherwise the fetch happens and refills the slot. -/
def cachedLoadData (c : CacheState) (now : Nat) (o : FetchOutcome) :
    (DataFrame × Option AppError) × CacheState × Bool :=
  match c.slot with
  | some (t, cached) =>
      if now - t < CACHE_TTL then (cached, c, false)
      else (load_data o, ⟨some (now, load_data o)⟩, true)
  | none => (load_data o, ⟨some (now, load_data o)⟩, true)

theorem digitChar_toNat : ∀ n, n < 10 → (digitChar n).toNat - 48 = n := by decide

theorem digitChar_isDigit : ∀ n, n < 10 → (digitChar n).isDigit = true := by decide

theorem natOfDigitsAux_append (l1 l2 : List Char) (acc : Nat) :
    natOfDigitsAux acc (l1 ++ l2) = natOfDigitsAux (natOfDigitsAux acc l1) l2 := by
  induction l1 generalizing acc with
  | nil => rfl
  | cons c cs ih =>
      rw [List.cons_append]
      show natOfDigitsAux (acc * 10 + (c.toNat - 48)) (cs ++ l2) = _
      rw [ih]
      rfl

theorem renderNatAux_correct :
    ∀ fuel n acc : Nat, n < 10 ^ fuel →
      natOfDigitsAux acc (renderNatAux fuel n) =
        acc * 10 ^ (renderNatAux fuel n).length + n := by
  intro fuel
  induction fuel with
  | zero =>
      intro n acc h
      have hn : n = 0 := Nat.lt_one_iff.mp (by simpa using h)
      subst hn
      have hr : renderNatAux 0 0 = [] := rfl
      rw [hr]
      show acc = acc * 10 ^ (List.length ([] : List Char)) + 0
      simp
  | succ fuel ih =>
      intro n acc h
      by_cases h10 : n < 10
      · have hr : renderNatAux (fuel + 1) n = [digitChar n] := by
          rw [renderNatAux, if_pos h10]
        rw [hr]
        show acc * 10 + ((digitChar n).toNat - 48) = acc * 10 ^ ([digitChar n].length) + n
        rw [digitChar_toNat n h10]
        simp
      · have hr : renderNatAux (fuel + 1) n =
            renderNatAux fuel (n / 10) ++ [digitChar (n % 10)] := by
          rw [renderNatAux, if_neg h10]
        have hdiv : n / 10 < 10 ^ fuel := by
          rw [Nat.div_lt_iff_lt_mul (by norm_num)]
          calc n < 10 ^ (fuel + 1) := h
          _ = 10 ^ fuel * 10 := by rw [Nat.pow_succ]
        rw [hr, natOfDigitsAux_append, ih (n / 10) acc hdiv]
        show natOfDigitsAux (_ * 10 + ((digitChar (n % 10)).toNat - 48)) [] = _
        rw [digitChar_toNat (n % 10) (Nat.mod_lt n (by norm_num))]
        show (acc * 10 ^ (renderNatAux fuel (n / 10)).length + n / 10) * 10 + n % 10 = _
        rw [List.length_append, List.length_cons, List.length_nil, Nat.pow_succ]
        have hm := Nat.div_add_mod n 10
        ring_nf
        omega

theorem natOfDigits_renderNat (n : Nat) : natOfDigitsAux 0 (renderNat n) = n := by
  have h2 : n < 2 ^ n := Nat.lt_two_pow n
  have h : n < 10 ^ (n + 1) := by
    calc n < 2 ^ n := h2
    _ ≤ 10 ^ n := Nat.pow_le_pow_left (by norm_num) n
    _ ≤ 10 ^ (n + 1) := Nat.pow_le_pow_right (by norm_num) (Nat.le_succ n)
  have := renderNatAux_correct (n + 1) n 0 h
  simpa [renderNat] using this

theorem renderNatAux_digits :
    ∀ fuel n : Nat, ∀ c ∈ renderNatAux fuel n, c.isDigit = true := by
  intro fuel
  induction fuel with
  | zero => intro n c hc; simp [renderNatAux] at hc
  | succ fuel ih =>
      intro n c hc
      rw [renderNatAux] at hc
      by_cases h10 : n < 10
      · rw [if_pos h10] at hc
        rcases List.mem_singleton.mp hc with rfl
        exact digitChar_isDigit n h10
      · rw [if_neg h10] at hc
        rcases List.mem_append.mp hc with h1 | h2
        · exact ih (n / 10) c h1
        · rcases List.mem_singleton.mp h2 with rfl
          exact digitChar_isDigit (n % 10) (Nat.mod_lt n (by norm_num))

theorem renderNat_ne_nil (n : Nat) : renderNat n ≠ [] := by
  rw [renderNat, renderNatAux]
  by_cases h10 : n < 10 <;> simp [h10]

theorem cleanNumericCell_natCast (n : Nat) :
    cleanNumericCell (Cell.int (n : Int)) = some n := by
  have h0 : ¬ ((n : Int) < 0) := not_lt.mpr (Int.natCast_nonneg n)
  have hchars : cellChars (Cell.int (n : Int)) = renderNat n := by
    simp [cellChars, intChars, h0]
  have hfilter : (renderNat n).filter Char.isDigit = renderNat n :=
    List.filter_eq_self.mpr (renderNatAux_digits (n + 1) n)
  rw [cleanNumericCell, hchars, hfilter]
  cases h : renderNat n with
  | nil => exact absurd h (renderNat_ne_nil n)
  | cons a l =>
      have hv := natOfDigits_renderNat n
      rw [h] at hv
      simp [hv]

theorem getD_set_self (l : List Cell) (i : Nat) (v : Cell) (h : i < l.length) :
    (l.set i v).getD i Cell.nan = v := by
  induction l generalizing i with
  | nil => simp at h
  | cons a t ih =>
      cases i with
      | zero => rfl
      | succ j => exact ih j (by simpa using h)

theorem getD_set_ne (l : List Cell) (i j : Nat) (v : Cell) (h : i ≠ j) :
    (l.set i v).getD j Cell.nan = l.getD j Cell.nan := by
  induction l generalizing i j with
  | nil => rfl
  | cons a t ih =>
      cases i with
      | zero =>
          cases j with
          | zero => exact absurd rfl h
          | succ j2 => rfl
      | succ i2 =>
          cases j with
          | zero => rfl
          | succ j2 => exact ih i2 j2 (fun he => h (by rw [he]))

theorem getD_mem (l : List Cell) (i : Nat) (h : i < l.length) :
    l.getD i Cell.nan ∈ l := by
  induction l generalizing i with
  | nil => simp at h
  | cons a t ih =>
      cases i with
      | zero => exact List.mem_cons_self a t
      | succ j => exact List.mem_cons_of_mem a (ih j (by simpa using h))

theorem set_getD_self (l : List Cell) (i : Nat) :
    l.set i (l.getD i Cell.nan) = l := by
  induction l generalizing i with
  | nil => rfl
  | cons a t ih =>
      cases i with
      | zero => rfl
      | succ j =>
          show a :: t.set j (t.getD j Cell.nan) = a :: t
          rw [ih]

theorem colIdx_lt (cs : List String) (c : String) (i : Nat)
    (h : colIdx cs c = some i) : i < cs.length := by
  induction cs generalizing i with
  | nil => simp [colIdx] at h
  | cons c0 rest ih =>
      rw [colIdx] at h
      by_cases he : c0 = c
      · rw [if_pos he] at h
        cases h
        simp

      · rw [if_neg he] at h
        cases hr : colIdx rest c with
        | none => rw [hr] at h; simp at h
        | some j =>
            rw [hr] at h
            simp at h
            have := ih j hr
            simp only [List.length_cons]
            omega

theorem colIdx_get (cs : List String) (c : String) (i : Nat)
    (h : colIdx cs c = some i) : cs.getD i "" = c := by
  induction cs generalizing i with
  | nil => simp [colIdx] at h
  | cons c0 rest ih =>
      rw [colIdx] at h
      by_cases he : c0 = c
      · rw [if_pos he] at h
        cases h
        simpa using he
      · rw [if_neg he] at h
        cases hr : colIdx rest c with
        | none => rw [hr] at h; simp at h
        | some j =>
            rw [hr] at h
            simp at h
            subst h
            exact ih j hr

theorem zip_set_getD_same (rows : List (List Cell)) (ncol : List Cell) (i : Nat)
    (hw : ∀ r ∈ rows, i < r.length) (hl : ncol.length = rows.length) :
    ((rows.zip ncol).map (fun p => p.1.set i p.2)).map
      (fun r => r.getD i Cell.nan) = ncol := by
  induction rows generalizing ncol with
  | nil =>
      cases ncol with
      | nil => rfl
      | cons v vs => simp at hl
  | cons r rest ih =>
      cases ncol with
      | nil => simp at hl
      | cons v vs =>
          show (r.set i v).getD i Cell.nan :: _ = v :: vs
          rw [getD_set_self r i v (hw r (List.mem_cons_self r rest))]
          congr 1
          exact ih vs (fun r2 hr2 => hw r2 (List.mem_cons_of_mem r hr2))
            (by simpa using hl)

theorem zip_set_getD_ne (rows : List (List Cell)) (ncol : List Cell) (i j : Nat)
    (hne : i ≠ j) (hl : ncol.length = rows.length) :
    ((rows.zip ncol).map (fun p => p.1.set i p.2)).map
      (fun r => r.getD j Cell.nan) = rows.map (fun r => r.getD j Cell.nan) := by
  induction rows generalizing ncol with
  | nil => rfl
  | cons r rest ih =>
      cases ncol with
      | nil => simp at hl
      | cons v vs =>
          show (r.set i v).getD j Cell.nan :: _ = r.getD j Cell.nan :: _
          rw [getD_set_ne r i j v hne]
          congr 1
          exact ih vs (by simpa using hl)

theorem zip_set_self (rows : List (List Cell)) (i : Nat) :
    ((rows.zip (rows.map (fun r => r.getD i Cell.nan))).map
      (fun p => p.1.set i p.2)) = rows := by
  induction rows with
  | nil => rfl
  | cons r rest ih =>
      show r.set i (r.getD i Cell.nan) :: _ = r :: rest
      rw [set_getD_self]
      congr 1

theorem getCol_of_none (df : DataFrame) (c : String)
    (h : colIdx df.cols c = none) : getCol df c = [] := by
  unfold getCol
  rw [h]

theorem getCol_of_some (df : DataFrame) (c : String) (i : Nat)
    (h : colIdx df.cols c = some i) :
    getCol df c = df.rows.map (fun r => r.getD i Cell.nan) := by
  unfold getCol
  rw [h]

theorem getCol_mk_of_none (cols : List String) (rows : List (List Cell))
    (c : String) (h : colIdx cols c = none) :
    getCol ⟨cols, rows⟩ c = [] := by
  unfold getCol
  rw [show (⟨cols, rows⟩ : DataFrame).cols = cols from rfl, h]

theorem getCol_mk_of_some (cols : List String) (rows : List (List Cell))
    (c : String) (i : Nat) (h : colIdx cols c = some i) :
    getCol ⟨cols, rows⟩ c = rows.map (fun r => r.getD i Cell.nan) := by
  unfold getCol
  rw [show (⟨cols, rows⟩ : DataFrame).cols = cols from rfl, h]

theorem updateCol_of_none (df : DataFrame) (c : String) (f : List Cell → List Cell)
    (h : colIdx df.cols c = none) : updateCol df c f = df := by
  unfold updateCol
  rw [h]

theorem updateCol_of_some (df : DataFrame) (c : String) (f : List Cell → List Cell)
    (i : Nat) (h : colIdx df.cols c = some i) :
    updateCol df c f =
      ⟨df.cols,
        (df.rows.zip (f (df.rows.map (fun r => r.getD i Cell.nan)))).map
          (fun p => p.1.set i p.2)⟩ := by
  unfold updateCol
  rw [h]

theorem updateCol_cols (df : DataFrame) (c : String) (f : List Cell → List Cell) :
    (updateCol df c f).cols = df.cols := by
  cases h : colIdx df.cols c with
  | none => rw [updateCol_of_none df c f h]
  | some i => rw [updateCol_of_some df c f i h]

theorem updateCol_wf (df : DataFrame) (c : String) (f : List Cell → List Cell)
    (hwf : df.Wf) (_hf : ∀ l, (f l).length = l.length) :
    (updateCol df c f).Wf := by
  cases h : colIdx df.cols c with
  | none => rw [updateCol_of_none df c f h]; exact hwf
  | some i =>
      rw [updateCol_of_some df c f i h]
      intro r hr
      rcases List.mem_map.mp hr with ⟨p, hp, rfl⟩
      have hmem := List.of_mem_zip hp
      show (p.1.set i p.2).length = df.cols.length
      rw [List.length_set]
      exact hwf p.1 hmem.1

theorem updateCol_rows_length (df : DataFrame) (c : String)
    (f : List Cell → List Cell) (hf : ∀ l, (f l).length = l.length) :
    (updateCol df c f).rows.length = df.rows.length := by
  cases h : colIdx df.cols c with
  | none => rw [updateCol_of_none df c f h]
  | some i =>
      rw [updateCol_of_some df c f i h]
      show ((df.rows.zip _).map _).length = _
      rw [List.length_map, List.length_zip, hf, List.length_map, Nat.min_self]

theorem getCol_updateCol_same (df : DataFrame) (c : String)
    (f : List Cell → List Cell) (hwf : df.Wf)
    (hf : ∀ l, (f l).length = l.length) (hnil : f [] = []) :
    getCol (updateCol df c f) c = f (getCol df c) := by
  cases h : colIdx df.cols c with
  | none =>
      rw [updateCol_of_none df c f h, getCol_of_none df c h, hnil]
  | some i =>
      rw [updateCol_of_some df c f i h, getCol_mk_of_some df.cols _ c i h,
        getCol_of_some df c i h]
      exact zip_set_getD_same df.rows _ i
        (fun r hr => by rw [hwf r hr]; exact colIdx_lt df.cols c i h)
        (by rw [hf, List.length_map])

theorem getCol_updateCol_ne (df : DataFrame) (c c2 : String)
    (f : List Cell → List Cell) (_hwf : df.Wf)
    (hf : ∀ l, (f l).length = l.length) (hne : c2 ≠ c) :
    getCol (updateCol df c f) c2 = getCol df c2 := by
  cases h : colIdx df.cols c with
  | none => rw [updateCol_of_none df c f h]
  | some i =>
      rw [updateCol_of_some df c f i h]
      cases h2 : colIdx df.cols c2 with
      | none => rw [getCol_mk_of_none df.cols _ c2 h2, getCol_of_none df c2 h2]
      | some j =>
          rw [getCol_mk_of_some df.cols _ c2 j h2, getCol_of_some df c2 j h2]
          have hij : i ≠ j := by
            intro he
            subst he
            exact hne ((colIdx_get df.cols c2 i h2).symm.trans
              (colIdx_get df.cols c i h))
          exact zip_set_getD_ne df.rows _ i j hij (by rw [hf, List.length_map])

theorem updateCol_fix (df : DataFrame) (c : String) (f : List Cell → List Cell)
    (hfix : f (getCol df c) = getCol df c) : updateCol df c f = df := by
  cases h : colIdx df.cols c with
  | none => exact updateCol_of_none df c f h
  | some i =>
      rw [getCol_of_some df c i h] at hfix
      rw [updateCol_of_some df c f i h, hfix, zip_set_self]

theorem toNumericCol_length (l : List Cell) : (toNumericCol l).length = l.length := by
  unfold toNumericCol
  split <;> rw [List.length_map, List.length_map]

theorem toNumericCol_nil : toNumericCol [] = [] := rfl

theorem mapDatetime_length (l : List Cell) :
    (l.map toDatetimeCell).length = l.length := List.length_map l toDatetimeCell

theorem mapDatetime_nil : ([] : List Cell).map toDatetimeCell = [] := rfl

theorem normalizeDF_cols (df : DataFrame) : (normalizeDF df).cols = df.cols := by
  rw [normalizeDF, updateCol_cols, updateCol_cols, updateCol_cols, updateCol_cols]

theorem normalizeDF_wf (df : DataFrame) (hwf : df.Wf) : (normalizeDF df).Wf := by
  rw [normalizeDF]
  exact updateCol_wf _ _ _
    (updateCol_wf _ _ _
      (updateCol_wf _ _ _ (updateCol_wf _ _ _ hwf toNumericCol_length)
        toNumericCol_length)
      toNumericCol_length)
    mapDatetime_length

theorem normalizeDF_rows_length (df : DataFrame) :
    (normalizeDF df).rows.length = df.rows.length := by
  rw [normalizeDF, updateCol_rows_length _ _ _ mapDatetime_length,
    updateCol_rows_length _ _ _ toNumericCol_length,
    updateCol_rows_length _ _ _ toNumericCol_length,
    updateCol_rows_length _ _ _ toNumericCol_length]

theorem getCol_normalizeDF_numeric (df : DataFrame) (hwf : df.Wf) (c : String)
    (hc : c = "Km" ∨ c = "Prix" ∨ c = "Mc") :
    getCol (normalizeDF df) c = toNumericCol (getCol df c) := by
  have w1 : (updateCol df "Km" toNumericCol).Wf :=
    updateCol_wf _ _ _ hwf toNumericCol_length
  have w2 : (updateCol (updateCol df "Km" toNumericCol) "Prix" toNumericCol).Wf :=
    updateCol_wf _ _ _ w1 toNumericCol_length
  have w3 : (updateCol (updateCol (updateCol df "Km" toNumericCol) "Prix"
      toNumericCol) "Mc" toNumericCol).Wf :=
    updateCol_wf _ _ _ w2 toNumericCol_length
  rcases hc with rfl | rfl | rfl
  · rw [normalizeDF,
      getCol_updateCol_ne _ _ _ _ w3 mapDatetime_length (by decide),
      getCol_updateCol_ne _ _ _ _ w2 toNumericCol_length (by decide),
      getCol_updateCol_ne _ _ _ _ w1 toNumericCol_length (by decide),
      getCol_updateCol_same _ _ _ hwf toNumericCol_length toNumericCol_nil]
  · rw [normalizeDF,
      getCol_updateCol_ne _ _ _ _ w3 mapDatetime_length (by decide),
      getCol_updateCol_ne _ _ _ _ w2 toNumericCol_length (by decide),
      getCol_updateCol_same _ _ _ w1 toNumericCol_length toNumericCol_nil,
      getCol_updateCol_ne _ _ _ _ hwf toNumericCol_length (by decide)]
  · rw [normalizeDF,
      getCol_updateCol_ne _ _ _ _ w3 mapDatetime_length (by decide),
      getCol_updateCol_same _ _ _ w2 toNumericCol_length toNumericCol_nil,
      getCol_updateCol_ne _ _ _ _ w1 toNumericCol_length (by decide),
      getCol_updateCol_ne _ _ _ _ hwf toNumericCol_length (by decide)]

theorem getCol_normalizeDF_date (df : DataFrame) (hwf : df.Wf) :
    getCol (normalizeDF df) "DateScraping" =
      (getCol df "DateScraping").map toDatetimeCell := by
  have w1 : (updateCol df "Km" toNumericCol).Wf :=
    updateCol_wf _ _ _ hwf toNumericCol_length
  have w2 : (updateCol (updateCol df "Km" toNumericCol) "Prix" toNumericCol).Wf :=
    updateCol_wf _ _ _ w1 toNumericCol_length
  have w3 : (updateCol (updateCol (updateCol df "Km" toNumericCol) "Prix"
      toNumericCol) "Mc" toNumericCol).Wf :=
    updateCol_wf _ _ _ w2 toNumericCol_length
  rw [normalizeDF,
    getCol_updateCol_same _ _ _ w3 mapDatetime_length mapDatetime_nil,
    getCol_updateCol_ne _ _ _ _ w2 toNumericCol_length (by decide),
    getCol_updateCol_ne _ _ _ _ w1 toNumericCol_length (by decide),
    getCol_updateCol_ne _ _ _ _ hwf toNumericCol_length (by decide)]

theorem getCol_normalizeDF_other (df : DataFrame) (hwf : df.Wf) (c : String)
    (h1 : c ≠ "Km") (h2 : c ≠ "Prix") (h3 : c ≠ "Mc") (h4 : c ≠ "DateScraping") :
    getCol (normalizeDF df) c = getCol df c := by
  have w1 : (updateCol df "Km" toNumericCol).Wf :=
    updateCol_wf _ _ _ hwf toNumericCol_length
  have w2 : (updateCol (updateCol df "Km" toNumericCol) "Prix" toNumericCol).Wf :=
    updateCol_wf _ _ _ w1 toNumericCol_length
  have w3 : (updateCol (updateCol (updateCol df "Km" toNumericCol) "Prix"
      toNumericCol) "Mc" toNumericCol).Wf :=
    updateCol_wf _ _ _ w2 toNumericCol_length
  rw [normalizeDF,
    getCol_updateCol_ne _ _ _ _ w3 mapDatetime_length h4,
    getCol_updateCol_ne _ _ _ _ w2 toNumericCol_length h3,
    getCol_updateCol_ne _ _ _ _ w1 toNumericCol_length h2,
    getCol_updateCol_ne _ _ _ _ hwf toNumericCol_length h1]

theorem mem_toNumericCol (l : List Cell) (cell : Cell)
    (h : cell ∈ toNumericCol l) : NumericOrMissing cell := by
  unfold toNumericCol at h
  by_cases hall : (l.map cleanNumericCell).all Option.isSome
  · rw [if_pos hall] at h
    rcases List.mem_map.mp h with ⟨o, _, rfl⟩
    exact Int.natCast_nonneg _
  · rw [if_neg hall] at h
    rcases List.mem_map.mp h with ⟨o, _, rfl⟩
    cases o with
    | some n => exact Int.natCast_nonneg n
    | none => trivial

theorem parseYMD_valid (y m d : List Char) (dt : Date)
    (h : parseYMD y m d = some dt) : dateValid dt := by
  unfold parseYMD at h
  split at h
  · split at h
    · rename_i hb
      cases h
      exact ⟨hb.1, hb.2.1, hb.2.2.1, hb.2.2.2⟩
    · exact Option.noConfusion h
  · exact Option.noConfusion h

theorem parseDate_valid (s : String) (dt : Date)
    (h : parseDate s = some dt) : dateValid dt := by
  unfold parseDate at h
  cases hp : splitDash s.data [] with
  | nil => rw [hp] at h; exact Option.noConfusion h
  | cons y rest =>
      cases rest with
      | nil => rw [hp] at h; exact Option.noConfusion h
      | cons m rest2 =>
          cases rest2 with
          | nil => rw [hp] at h; exact Option.noConfusion h
          | cons dd rest3 =>
              cases rest3 with
              | nil =>
                  rw [hp] at h
                  exact parseYMD_valid y m dd dt h
              | cons e rest4 => rw [hp] at h; exact Option.noConfusion h

theorem toDatetimeCell_dateOrMissing (cell : Cell)
    (hnts : ∀ d, cell ≠ Cell.timestamp d) :
    DateOrMissing (toDatetimeCell cell) := by
  cases cell with
  | str s =>
      show DateOrMissing (match parseDate s with
        | some d => Cell.timestamp d
        | none => Cell.nan)
      cases hp : parseDate s with
      | some d => exact parseDate_valid s d hp
      | none => trivial
  | timestamp d => exact absurd rfl (hnts d)
  | int n => trivial
  | float n => trivial
  | nan => trivial
  | na => trivial
  | bool b => trivial
  | null => trivial

theorem jsonToCell_no_ts (j : Json) (d : Date) :
    jsonToCell j ≠ Cell.timestamp d := by
  cases j <;> simp [jsonToCell]

theorem recordCell_no_ts (j : Json) (c : String) (d : Date) :
    recordCell j c ≠ Cell.timestamp d := by
  unfold recordCell
  cases j with
  | obj fs =>
      show (match lookupField fs c with
        | some v => jsonToCell v
        | none => Cell.nan) ≠ Cell.timestamp d
      cases lookupField fs c with
      | some v => exact jsonToCell_no_ts v d
      | none => simp
  | null => simp
  | bool b => simp
  | num n => simp
  | str s => simp
  | arr xs => simp

theorem recordsDF_wf (xs : List Json) : (recordsDF xs).Wf := by
  intro r hr
  rcases List.mem_map.mp hr with ⟨x, _, rfl⟩
  show (rowOfRecord (recordKeys xs) x).length = (recordKeys xs).length
  unfold rowOfRecord
  rw [List.length_map]

theorem recordsDF_no_ts (xs : List Json) : (recordsDF xs).NoTs := by
  intro r hr cell hc d
  rcases List.mem_map.mp hr with ⟨x, _, rfl⟩
  rcases List.mem_map.mp hc with ⟨c0, _, rfl⟩
  exact recordCell_no_ts x c0 d

theorem recordsDF_rows_length (xs : List Json) :
    (recordsDF xs).rows.length = xs.length := by
  show (xs.map _).length = xs.length
  rw [List.length_map]

theorem pdDataFrame_wf (j : Json) (df : DataFrame)
    (h : pdDataFrame j = .ok df) : df.Wf := by
  cases j with
  | arr xs =>
      simp only [pdDataFrame] at h
      by_cases h1 : xs.all Json.isObj
      · rw [if_pos h1] at h
        cases h
        exact recordsDF_wf xs
      · rw [if_neg h1] at h
        by_cases h2 : xs.all (fun j => !j.isObj)
        · rw [if_pos h2] at h
          cases h
          intro r hr
          rcases List.mem_map.mp hr with ⟨x, _, rfl⟩
          rfl
        · rw [if_neg h2] at h
          exact Except.noConfusion h
  | obj fs =>
      simp only [pdDataFrame] at h
      by_cases h1 : fs.all (fun kv => kv.2.isArr)
      · rw [if_pos h1] at h
        unfold columnarDF at h
        split at h
        · cases h
          intro r hr
          rcases List.mem_map.mp hr with ⟨i, _, rfl⟩
          show (fs.map _).length = (fs.map Prod.fst).length
          rw [List.length_map, List.length_map]
        · exact Except.noConfusion h
      · rw [if_neg h1] at h
        exact Except.noConfusion h
  | null =>
      have h2 : Except.ok emptyDF = Except.ok df := h
      cases h2
      intro r hr
      exact absurd hr (List.not_mem_nil r)
  | bool b => exact Except.noConfusion h
  | num n => exact Except.noConfusion h
  | str s => exact Except.noConfusion h

theorem pdDataFrame_no_ts (j : Json) (df : DataFrame)
    (h : pdDataFrame j = .ok df) : df.NoTs := by
  cases j with
  | arr xs =>
      simp only [pdDataFrame] at h
      by_cases h1 : xs.all Json.isObj
      · rw [if_pos h1] at h
        cases h
        exact recordsDF_no_ts xs
      · rw [if_neg h1] at h
        by_cases h2 : xs.all (fun j => !j.isObj)
        · rw [if_pos h2] at h
          cases h
          intro r hr cell hc d
          rcases List.mem_map.mp hr with ⟨x, _, rfl⟩
          rcases List.mem_singleton.mp hc with rfl
          exact jsonToCell_no_ts x d
        · rw [if_neg h2] at h
          exact Except.noConfusion h
  | obj fs =>
      simp only [pdDataFrame] at h
      by_cases h1 : fs.all (fun kv => kv.2.isArr)
      · rw [if_pos h1] at h
        unfold columnarDF at h
        split at h
        · cases h
          intro r hr cell hc d
          rcases List.mem_map.mp hr with ⟨i, _, rfl⟩
          rcases List.mem_map.mp hc with ⟨kv, _, rfl⟩
          exact jsonToCell_no_ts _ d
        · exact Except.noConfusion h
      · rw [if_neg h1] at h
        exact Except.noConfusion h
  | null =>
      have h2 : Except.ok emptyDF = Except.ok df := h
      cases h2
      intro r hr
      exact absurd hr (List.not_mem_nil r)
  | bool b => exact Except.noConfusion h
  | num n => exact Except.noConfusion h
  | str s => exact Except.noConfusion h

theorem mem_getCol_no_ts (df : DataFrame) (c : String) (cell : Cell)
    (hwf : df.Wf) (hnts : df.NoTs) (h : cell ∈ getCol df c) (d : Date) :
    cell ≠ Cell.timestamp d := by
  cases hci : colIdx df.cols c with
  | none =>
      rw [getCol_of_none df c hci] at h
      exact absurd h (List.not_mem_nil cell)
  | some i =>
      rw [getCol_of_some df c i hci] at h
      rcases List.mem_map.mp h with ⟨r, hr, rfl⟩
      have hi : i < r.length := by
        rw [hwf r hr]
        exact colIdx_lt df.cols c i hci
      exact hnts r hr _ (getD_mem r i hi) d

theorem getCol_emptyDF (c : String) : getCol emptyDF c = [] := rfl

theorem processBody_none (data : Json) (h : shapeSelect data = none) :
    processBody data = (emptyDF, none) := by
  unfold processBody
  rw [h]

theorem processBody_ok (data src : Json) (df : DataFrame)
    (h1 : shapeSelect data = some src) (h2 : pdDataFrame src = .ok df) :
    processBody data = (normalizeDF df, none) := by
  unfold processBody
  simp only [h1]
  rw [h2]

theorem processBody_err (data src : Json) (e : String)
    (h1 : shapeSelect data = some src) (h2 : pdDataFrame src = .error e) :
    processBody data = (emptyDF, some (.processingError e)) := by
  unfold processBody
  simp only [h1]
  rw [h2]

theorem load_data_http (status : Nat) (body : Option Json) (hs : 400 ≤ status) :
    load_data (.response status body) =
      (emptyDF, some (.fetchError "HTTPError")) := by
  simp only [load_data]
  rw [if_pos hs]

theorem load_data_badjson (status : Nat) (hs : ¬ 400 ≤ status) :
    load_data (.response status none) =
      (emptyDF, some (.processingError "JSONDecodeError")) := by
  simp only [load_data]
  rw [if_neg hs]

theorem load_data_response (status : Nat) (data : Json) (hs : ¬ 400 ≤ status) :
    load_data (.response status (some data)) = processBody data := by
  simp only [load_data]
  rw [if_neg hs]

/-- Every result of `load_data` is either the empty table (a failure or
scalar branch) or the normalization of a well-formed, timestamp-free
table produced by the DataFrame constructor. -/
theorem load_data_shape (o : FetchOutcome) :
    (load_data o).1 = emptyDF ∨
      ∃ df : DataFrame, df.Wf ∧ df.NoTs ∧ (load_data o).1 = normalizeDF df := by
  cases o with
  | connError => exact Or.inl rfl
  | timeoutExpired => exact Or.inl rfl
  | response status body =>
      by_cases hs : 400 ≤ status
      · rw [load_data_http status body hs]
        exact Or.inl rfl
      · cases body with
        | none =>
            rw [load_data_badjson status hs]
            exact Or.inl rfl
        | some data =>
            rw [load_data_response status data hs]
            cases hsel : shapeSelect data with
            | none =>
                rw [processBody_none data hsel]
                exact Or.inl rfl
            | some src =>
                cases hdf : pdDataFrame src with
                | error e =>
                    rw [processBody_err data src e hsel hdf]
                    exact Or.inl rfl
                | ok df =>
                    rw [processBody_ok data src df hsel hdf]
                    exact Or.inr ⟨df, pdDataFrame_wf src df hdf,
                      pdDataFrame_no_ts src df hdf, rfl⟩

theorem pdDataFrame_records (xs : List Json) (h : xs.all Json.isObj = true) :
    pdDataFrame (.arr xs) = .ok (recordsDF xs) := by
  simp only [pdDataFrame]
  rw [if_pos h]

theorem pdDataFrame_scalar (v : Json) (h : v.isScalar = true)
    (hn : v ≠ .null) :
    pdDataFrame v =
      .error "ValueError: DataFrame constructor not properly called" := by
  cases v with
  | arr xs => exact Bool.noConfusion h
  | obj fs => exact Bool.noConfusion h
  | null => exact absurd rfl hn
  | bool b => rfl
  | num n => rfl
  | str s => rfl

theorem pdDataFrame_null : pdDataFrame .null = .ok emptyDF := rfl

theorem shapeSelect_obj_data (fs : List (String × Json)) (v : Json)
    (h : lookupField fs "data" = some v) : shapeSelect (.obj fs) = some v := by
  show (match lookupField fs "data" with
    | some v => some v
    | none => some (Json.arr [Json.obj fs])) = some v
  rw [h]

theorem cleanNumericCell_intCell (cell : Cell) (h : isIntCell cell = true) :
    ∃ n : Nat, cell = Cell.int (n : Int) ∧ cleanNumericCell cell = some n := by
  cases cell with
  | int n =>
      have h0 : 0 ≤ n := by simpa [isIntCell] using h
      refine ⟨n.toNat, by rw [Int.toNat_of_nonneg h0], ?_⟩
      rw [show Cell.int n = Cell.int ((n.toNat : Nat) : Int) from by
        rw [Int.toNat_of_nonneg h0]]
      exact cleanNumericCell_natCast n.toNat
  | str s => exact Bool.noConfusion h
  | float n => exact Bool.noConfusion h
  | nan => exact Bool.noConfusion h
  | na => exact Bool.noConfusion h
  | bool b => exact Bool.noConfusion h
  | null => exact Bool.noConfusion h
  | timestamp d => exact Bool.noConfusion h

theorem all_some_of_int (l : List Cell)
    (h : ∀ cell ∈ l, isIntCell cell = true) :
    (l.map cleanNumericCell).all Option.isSome = true := by
  rw [List.all_eq_true]
  intro o ho
  rcases List.mem_map.mp ho with ⟨cell, hc, rfl⟩
  rcases cleanNumericCell_intCell cell (h cell hc) with ⟨n, _, hcn⟩
  rw [hcn]
  rfl

theorem map_clean_int (l : List Cell)
    (h : ∀ cell ∈ l, isIntCell cell = true) :
    (l.map cleanNumericCell).map (fun o => Cell.int ((o.getD 0 : Nat) : Int)) = l := by
  induction l with
  | nil => rfl
  | cons a t ih =>
      rcases cleanNumericCell_intCell a (h a (List.mem_cons_self a t)) with ⟨n, ha, hc⟩
      show Cell.int (((cleanNumericCell a).getD 0 : Nat) : Int) :: _ = a :: t
      rw [hc]
      congr 1
      · exact ha.symm
      · exact ih (fun cell hc2 => h cell (List.mem_cons_of_mem a hc2))

theorem toNumericCol_fix (l : List Cell)
    (h : ∀ cell ∈ l, isIntCell cell = true) : toNumericCol l = l := by
  unfold toNumericCol
  rw [if_pos (all_some_of_int l h)]
  exact map_clean_int l h

theorem mapDatetime_fix (l : List Cell)
    (h : ∀ cell ∈ l, (∃ d, cell = Cell.timestamp d) ∨ cell = Cell.nan) :
    l.map toDatetimeCell = l := by
  induction l with
  | nil => rfl
  | cons a t ih =>
      show toDatetimeCell a :: _ = a :: t
      congr 1
      · rcases h a (List.mem_cons_self a t) with ⟨d, rfl⟩ | rfl
        · rfl
        · rfl
      · exact ih (fun c hc => h c (List.mem_cons_of_mem a hc))

theorem filterStep_cols (p : List String) (d : DataFrame) (col : String)
    (ch : Cell) : (filterStep p d col ch).cols = d.cols := by
  unfold filterStep
  split
  · rfl
  · rfl

theorem filterStep_sublist (p : List String) (d : DataFrame) (col : String)
    (ch : Cell) : (filterStep p d col ch).rows.Sublist d.rows := by
  unfold filterStep
  split
  · exact List.filter_sublist d.rows
  · exact List.Sublist.refl d.rows

theorem filterStep_tous (p : List String) (d : DataFrame) (col : String)
    (ch : Cell) (h : ch = tous) : filterStep p d col ch = d := by
  subst h
  unfold filterStep
  rw [if_neg]
  intro hc
  exact hc.2 rfl

theorem filterStep_absent (p : List String) (d : DataFrame) (col : String)
    (ch : Cell) (h : col ∉ p) : filterStep p d col ch = d := by
  unfold filterStep
  rw [if_neg]
  intro hc
  exact h hc.1

theorem cachedLoadData_empty (now : Nat) (o : FetchOutcome) :
    cachedLoadData emptyCache now o =
      (load_data o, ⟨some (now, load_data o)⟩, true) := rfl

theorem cachedLoadData_fresh (t now : Nat) (res : DataFrame × Option AppError)
    (o : FetchOutcome) (h : now - t < CACHE_TTL) :
    cachedLoadData ⟨some (t, res)⟩ now o = (res, ⟨some (t, res)⟩, false) := by
  unfold cachedLoadData
  show (if now - t < CACHE_TTL then (res, (⟨some (t, res)⟩ : CacheState), false)
    else (load_data o, ⟨some (now, load_data o)⟩, true)) =
    (res, ⟨some (t, res)⟩, false)
  rw [if_pos h]

theorem cachedLoadData_stale (t now : Nat) (res : DataFrame × Option AppError)
    (o : FetchOutcome) (h : ¬ now - t < CACHE_TTL) :
    cachedLoadData ⟨some (t, res)⟩ now o =
      (load_data o, ⟨some (now, load_data o)⟩, true) := by
  unfold cachedLoadData
  show (if now - t < CACHE_TTL then (res, (⟨some (t, res)⟩ : CacheState), false)
    else (load_data o, ⟨some (now, load_data o)⟩, true)) =
    (load_data o, ⟨some (now, load_data o)⟩, true)
  rw [if_neg h]

/-- C1: for every payload (any fetch outcome), after normalization by
`load_data` every cell of the `Km`, `Prix`, `Mc` columns is a
non-negative integer or the missing marker (never non-numeric text),
and every cell of `DateScraping` is a valid timestamp or missing (never
unparsable text). -/
theorem C1_normalization_invariant (o : FetchOutcome) :
    (∀ c, c = "Km" ∨ c = "Prix" ∨ c = "Mc" →
      ∀ cell ∈ getCol (load_data o).1 c, NumericOrMissing cell) ∧
    (∀ cell ∈ getCol (load_data o).1 "DateScraping", DateOrMissing cell) := by
  rcases load_data_shape o with h | ⟨df, hwf, hnts, h⟩
  · rw [h]
    constructor
    · intro c _ cell hc
      rw [getCol_emptyDF] at hc
      exact absurd hc (List.not_mem_nil cell)
    · intro cell hc
      rw [getCol_emptyDF] at hc
      exact absurd hc (List.not_mem_nil cell)
  · rw [h]
    constructor
    · intro c hc cell hcell
      rw [getCol_normalizeDF_numeric df hwf c hc] at hcell
      exact mem_toNumericCol _ cell hcell
    · intro cell hcell
      rw [getCol_normalizeDF_date df hwf] at hcell
      rcases List.mem_map.mp hcell with ⟨c0, hc0, rfl⟩
      exact toDatetimeCell_dateOrMissing c0
        (fun d => mem_getCol_no_ts df "DateScraping" c0 hwf hnts hc0 d)

/-- C1 witness: the invariant instantiated at a concrete successful
fetch, on concrete cells of the loaded table. -/
theorem C1_normalization_invariant_witness :
    NumericOrMissing (Cell.int 120000) ∧
      DateOrMissing (Cell.timestamp ⟨2024, 1, 15⟩) := by
  have h := C1_normalization_invariant
    (.response 200 (some (.arr [.obj
      [("Km", .str "120 000 km"), ("DateScraping", .str "2024-01-15")]])))
  exact ⟨h.1 "Km" (Or.inl rfl) (Cell.int 120000) (by decide),
    h.2 (Cell.timestamp ⟨2024, 1, 15⟩) (by decide)⟩

/-- C2 counterexample: on the scalar payload "unexpected-scalar" the
`else: return pd.DataFrame()` branch returns the empty table with NO
reported error — no ProcessingError is surfaced, contrary to the claim.
-/
theorem C2_counterexample :
    load_data (.response 200 (some (.str "unexpected-scalar"))) =
      (emptyDF, none) := by decide

/-- C2 (amended): for every successfully fetched body that parses as
JSON but is neither a sequence nor a mapping, `load_data` returns an
empty table silently — no error of any kind is reported. -/
theorem C2_scalar_silent_empty (j : Json) (h : j.isScalar = true) :
    load_data (.response 200 (some j)) = (emptyDF, none) := by
  rw [load_data_response 200 j (by norm_num)]
  cases j with
  | null => exact processBody_none _ rfl
  | bool b => exact processBody_none _ rfl
  | num n => exact processBody_none _ rfl
  | str s => exact processBody_none _ rfl
  | arr xs => exact Bool.noConfusion h
  | obj fs => exact Bool.noConfusion h

/-- C2 witness: the amended statement at the spec's scalar payload. -/
theorem C2_scalar_silent_empty_witness :
    load_data (.response 200 (some (.str "unexpected-scalar"))) =
      (emptyDF, none) :=
  C2_scalar_silent_empty (.str "unexpected-scalar") rfl

/-- C3 counterexample: loading [{"Km": "120 000 km"}, {"Km": "MAD"}]
yields an already-normalized table whose Km column is numeric —
[120000.0, NaN], float64 because of the missing value — yet re-running
the coercion steps changes 120000 into 1200000, because the float
rendering "120000.0" contributes an extra digit. -/
theorem C3_counterexample :
    getCol (load_data (.response 200 (some (.arr
        [.obj [("Km", Json.str "120 000 km")],
         .obj [("Km", Json.str "MAD")]])))).1 "Km" =
      [Cell.float 120000, Cell.nan] ∧
    normalizeDF (load_data (.response 200 (some (.arr
        [.obj [("Km", Json.str "120 000 km")],
         .obj [("Km", Json.str "MAD")]])))).1 ≠
      (load_data (.response 200 (some (.arr
        [.obj [("Km", Json.str "120 000 km")],
         .obj [("Km", Json.str "MAD")]])))).1 ∧
    getCol (normalizeDF (load_data (.response 200 (some (.arr
        [.obj [("Km", Json.str "120 000 km")],
         .obj [("Km", Json.str "MAD")]])))).1) "Km" =
      [Cell.float 1200000, Cell.nan] := by
  refine ⟨by decide, by decide, by decide⟩

/-- C3 (amended): re-running the coercion steps is the identity on every
table whose Km, Prix, Mc columns hold only int64 cells (what
normalization produces when no value in the column is missing) and whose
DateScraping column holds only timestamps or missing; a missing value
forces the float64 representation, whose ".0" rendering gains a digit
under re-coercion. -/
theorem C3_idempotent_on_int (df : DataFrame)
    (hnum : ∀ c, c = "Km" ∨ c = "Prix" ∨ c = "Mc" →
      ∀ cell ∈ getCol df c, isIntCell cell = true)
    (hdate : ∀ cell ∈ getCol df "DateScraping",
      (∃ d, cell = Cell.timestamp d) ∨ cell = Cell.nan) :
    normalizeDF df = df := by
  have e1 : updateCol df "Km" toNumericCol = df :=
    updateCol_fix df "Km" toNumericCol
      (toNumericCol_fix _ (hnum "Km" (Or.inl rfl)))
  have e2 : updateCol df "Prix" toNumericCol = df :=
    updateCol_fix df "Prix" toNumericCol
      (toNumericCol_fix _ (hnum "Prix" (Or.inr (Or.inl rfl))))
  have e3 : updateCol df "Mc" toNumericCol = df :=
    updateCol_fix df "Mc" toNumericCol
      (toNumericCol_fix _ (hnum "Mc" (Or.inr (Or.inr rfl))))
  rw [normalizeDF, e1, e2, e3]
  exact updateCol_fix df "DateScraping" (List.map toDatetimeCell)
    (mapDatetime_fix _ hdate)

/-- C3 witness: idempotence at a concrete int64-valued table. -/
theorem C3_idempotent_on_int_witness :
    normalizeDF ⟨["Km"], [[Cell.int 5]]⟩ = ⟨["Km"], [[Cell.int 5]]⟩ :=
  C3_idempotent_on_int ⟨["Km"], [[Cell.int 5]]⟩
    (by
      intro c hc
      rcases hc with rfl | rfl | rfl <;> decide)
    (by
      intro cell hcell
      have h : getCol ⟨["Km"], [[Cell.int 5]]⟩ "DateScraping" = [] := rfl
      rw [h] at hcell
      exact absurd hcell (List.not_mem_nil cell))

/-- C4 counterexample: a mapping whose `data` value is the scalar `5` is
NOT wrapped as a single-row table: the constructor raises, the failure
is caught, and `load_data` returns an empty table with a reported
ProcessingError. -/
theorem C4_counterexample :
    load_data (.response 200 (some (.obj [("data", Json.num 5)]))) =
      (emptyDF, some (.processingError
        "ValueError: DataFrame constructor not properly called")) ∧
    ((load_data (.response 200 (some (.obj [("data", Json.num 5)])))).1).rows.length
      ≠ 1 := by
  refine ⟨by decide, by decide⟩

/-- C4 (amended): for a mapping containing the key `data`, `load_data`
tabularizes the value at `data` when it is a sequence of records (one
row per element, no error); a non-null scalar there is NOT wrapped as a
single row — the constructor raises, the failure is caught, and an
empty table plus a reported ProcessingError results; a null there makes
`pd.DataFrame(None)` build an empty table, returned with no error. -/
theorem C4_data_key_tabularization (fs : List (String × Json)) :
    (∀ xs : List Json, lookupField fs "data" = some (.arr xs) →
      xs.all Json.isObj = true →
      ((load_data (.response 200 (some (.obj fs)))).1).rows.length = xs.length ∧
      (load_data (.response 200 (some (.obj fs)))).2 = none) ∧
    (∀ v : Json, lookupField fs "data" = some v → v.isScalar = true →
      v ≠ .null →
      load_data (.response 200 (some (.obj fs))) =
        (emptyDF, some (.processingError
          "ValueError: DataFrame constructor not properly called"))) ∧
    (lookupField fs "data" = some .null →
      load_data (.response 200 (some (.obj fs))) = (emptyDF, none)) := by
  refine ⟨?_, ?_, ?_⟩
  · intro xs hl hall
    rw [load_data_response 200 _ (by norm_num),
      processBody_ok (.obj fs) (.arr xs) (recordsDF xs)
        (shapeSelect_obj_data fs (.arr xs) hl) (pdDataFrame_records xs hall)]
    exact ⟨by
      show (normalizeDF (recordsDF xs)).rows.length = xs.length
      rw [normalizeDF_rows_length, recordsDF_rows_length], rfl⟩
  · intro v hl hscalar hnull
    rw [load_data_response 200 _ (by norm_num),
      processBody_err (.obj fs) v _
        (shapeSelect_obj_data fs v hl) (pdDataFrame_scalar v hscalar hnull)]
  · intro hl
    rw [load_data_response 200 _ (by norm_num),
      processBody_ok (.obj fs) .null emptyDF
        (shapeSelect_obj_data fs .null hl) pdDataFrame_null]
    rfl

/-- C4 witness: the three amended branches at concrete payloads. -/
theorem C4_data_key_tabularization_witness :
    (((load_data (.response 200 (some (.obj
        [("data", Json.arr [Json.obj [("Marque", Json.str "Dacia")]])])))).1).rows.length
      = 1 ∧
      (load_data (.response 200 (some (.obj
        [("data", Json.arr [Json.obj [("Marque", Json.str "Dacia")]])])))).2 = none) ∧
    load_data (.response 200 (some (.obj [("data", Json.num 5)]))) =
      (emptyDF, some (.processingError
        "ValueError: DataFrame constructor not properly called")) ∧
    load_data (.response 200 (some (.obj [("data", Json.null)]))) =
      (emptyDF, none) :=
  ⟨(C4_data_key_tabularization
      [("data", Json.arr [Json.obj [("Marque", Json.str "Dacia")]])]).1
    [Json.obj [("Marque", Json.str "Dacia")]] rfl rfl,
   (C4_data_key_tabularization [("data", Json.num 5)]).2.1 (Json.num 5) rfl rfl
     (fun hn => Json.noConfusion hn),
   (C4_data_key_tabularization [("data", Json.null)]).2.2 rfl⟩

/-- C5: the request timeout is the 30-unit bound; every transport-level
failure (connection error, timeout, non-success HTTP status) is
classified as a fetch error, reported, and yields an empty table; and
on every outcome the result is either error-free or an empty table with
a classified error — no exception escapes (the model is a total
function into classified results, with no retry: exactly one fetch
outcome is consumed). -/
theorem C5_fetch_errors (o : FetchOutcome) :
    REQUEST_TIMEOUT = 30 ∧
    ((o = .connError ∨ o = .timeoutExpired ∨
        ∃ s b, o = .response s b ∧ 400 ≤ s) →
      (load_data o).1 = emptyDF ∧
        ∃ m, (load_data o).2 = some (AppError.fetchError m)) ∧
    ((load_data o).2 = none ∨
      ((load_data o).1 = emptyDF ∧ ∃ e, (load_data o).2 = some e)) := by
  refine ⟨rfl, ?_, ?_⟩
  · intro h
    rcases h with rfl | rfl | ⟨s, b, rfl, hs⟩
    · exact ⟨rfl, "ConnectionError", rfl⟩
    · exact ⟨rfl, "ReadTimeout", rfl⟩
    · rw [load_data_http s b hs]
      exact ⟨rfl, "HTTPError", rfl⟩
  · cases o with
    | connError => exact Or.inr ⟨rfl, _, rfl⟩
    | timeoutExpired => exact Or.inr ⟨rfl, _, rfl⟩
    | response status body =>
        by_cases hs : 400 ≤ status
        · rw [load_data_http status body hs]
          exact Or.inr ⟨rfl, _, rfl⟩
        · cases body with
          | none =>
              rw [load_data_badjson status hs]
              exact Or.inr ⟨rfl, _, rfl⟩
          | some data =>
              rw [load_data_response status data hs]
              cases hsel : shapeSelect data with
              | none =>
                  rw [processBody_none data hsel]
                  exact Or.inl rfl
              | some src =>
                  cases hdf : pdDataFrame src with
                  | ok df =>
                      rw [processBody_ok data src df hsel hdf]
                      exact Or.inl rfl
                  | error e =>
                      rw [processBody_err data src e hsel hdf]
                      exact Or.inr ⟨rfl, _, rfl⟩

/-- C5 witness: classification at a concrete connection failure. -/
theorem C5_fetch_errors_witness :
    (load_data .connError).1 = emptyDF ∧
      ∃ m, (load_data .connError).2 = some (AppError.fetchError m) :=
  (C5_fetch_errors .connError).2.1 (Or.inl rfl)

/-- C6: the numeric coercion converts the value to text, keeps only the
concatenated run of decimal digits and parses it as an integer:
"12 345 MAD" yields 12345, "85.000 MAD" yields 85000, a digit-free value
yields missing rather than raising; end to end, the spec's first example
payload loads to one row with Km=120000, Prix=85000, Marque="Dacia". -/
theorem C6_digit_extraction :
    cleanNumericCell (Cell.str "12 345 MAD") = some 12345 ∧
    cleanNumericCell (Cell.str "85.000 MAD") = some 85000 ∧
    cleanNumericCell (Cell.str "") = none ∧
    cleanNumericCell (Cell.str "MAD") = none ∧
    (∀ s : String, s.data.filter Char.isDigit = [] →
      cleanNumericCell (Cell.str s) = none) ∧
    load_data (.response 200 (some (.obj [("data", .arr [.obj
      [("Km", .str "120 000 km"), ("Prix", .str "85.000 MAD"),
       ("Marque", .str "Dacia")]])]))) =
      (⟨["Km", "Prix", "Marque"],
        [[Cell.int 120000, Cell.int 85000, Cell.str "Dacia"]]⟩, none) := by
  refine ⟨by decide, by decide, by decide, by decide, ?_, by decide⟩
  intro s h
  unfold cleanNumericCell
  show (match (s.data.filter Char.isDigit : List Char) with
    | [] => none
    | cs => some (natOfDigitsAux 0 cs)) = none
  rw [h]

/-- C6 witness: the digit-free clause at a concrete value. -/
theorem C6_digit_extraction_witness :
    cleanNumericCell (Cell.str "n/a") = none :=
  C6_digit_extraction.2.2.2.2.1 "n/a" (by decide)

/-- C7: for every payload shaped as a sequence of records, the row count
of the normalized table equals the sequence length; in particular the
empty sequence yields an empty table with no error. -/
theorem C7_row_count (xs : List Json) (h : xs.all Json.isObj = true) :
    ((load_data (.response 200 (some (.arr xs)))).1).rows.length = xs.length ∧
    load_data (.response 200 (some (.arr []))) = (emptyDF, none) := by
  constructor
  · rw [load_data_response 200 _ (by norm_num),
      processBody_ok (.arr xs) (.arr xs) (recordsDF xs) rfl
        (pdDataFrame_records xs h)]
    show (normalizeDF (recordsDF xs)).rows.length = xs.length
    rw [normalizeDF_rows_length, recordsDF_rows_length]
  · decide

/-- C7 witness: the row count at a concrete one-record payload. -/
theorem C7_row_count_witness :
    ((load_data (.response 200 (some (.arr
      [.obj [("Marque", Json.str "Dacia")]])))).1).rows.length = 1 :=
  (C7_row_count [.obj [("Marque", Json.str "Dacia")]] rfl).1

/-- C9: for every payload the constructor accepts, normalization leaves
every column other than Km, Prix, Mc, DateScraping unmodified (the
cells pass through verbatim), and the column list is unchanged — a
recognized column absent from the payload stays absent, with no
synthetic default. -/
theorem C9_frame (j : Json) (df : DataFrame) (hdf : pdDataFrame j = .ok df)
    (c : String) (h1 : c ≠ "Km") (h2 : c ≠ "Prix") (h3 : c ≠ "Mc")
    (h4 : c ≠ "DateScraping") :
    getCol (normalizeDF df) c = getCol df c ∧
      (normalizeDF df).cols = df.cols :=
  ⟨getCol_normalizeDF_other df (pdDataFrame_wf j df hdf) c h1 h2 h3 h4,
    normalizeDF_cols df⟩

/-- C9 witness: the Marque column passes through verbatim on a concrete
payload. -/
theorem C9_frame_witness :
    getCol (normalizeDF (recordsDF
        [.obj [("Km", Json.str "120 000 km"), ("Marque", Json.str "Dacia")]]))
      "Marque" =
      getCol (recordsDF
        [.obj [("Km", Json.str "120 000 km"), ("Marque", Json.str "Dacia")]])
      "Marque" ∧
    (normalizeDF (recordsDF
        [.obj [("Km", Json.str "120 000 km"), ("Marque", Json.str "Dacia")]])).cols =
      (recordsDF
        [.obj [("Km", Json.str "120 000 km"), ("Marque", Json.str "Dacia")]]).cols :=
  C9_frame
    (.arr [.obj [("Km", Json.str "120 000 km"), ("Marque", Json.str "Dacia")]])
    (recordsDF [.obj [("Km", Json.str "120 000 km"), ("Marque", Json.str "Dacia")]])
    (pdDataFrame_records _ rfl) "Marque"
    (by decide) (by decide) (by decide) (by decide)

/-- C10: `apply_filters` returns a subsequence of its input — each
output row is an input row, relative order is preserved, no row is
added, and the columns are unchanged; when every selectbox is on "Tous",
or when no filterable column is present, the output equals the input. -/
theorem C10_filters (df : DataFrame) (sel : FilterSelection) :
    (apply_filters df sel).cols = df.cols ∧
    (apply_filters df sel).rows.Sublist df.rows ∧
    (sel = allTous → apply_filters df sel = df) ∧
    ((∀ c ∈ filterCols, c ∉ df.cols) → apply_filters df sel = df) := by
  refine ⟨?_, ?_, ?_, ?_⟩
  · unfold apply_filters
    rw [filterStep_cols, filterStep_cols, filterStep_cols, filterStep_cols,
      filterStep_cols, filterStep_cols]
  · unfold apply_filters
    exact ((((((filterStep_sublist _ _ "Etat" _).trans
      (filterStep_sublist _ _ "Marque" _)).trans
      (filterStep_sublist _ _ "Statut" _)).trans
      (filterStep_sublist _ _ "Carburant" _)).trans
      (filterStep_sublist _ _ "Transmission" _)).trans
      (filterStep_sublist _ _ "Source" _))
  · intro h
    subst h
    unfold apply_filters
    simp only [allTous]
    rw [filterStep_tous _ _ _ _ rfl, filterStep_tous _ _ _ _ rfl,
      filterStep_tous _ _ _ _ rfl, filterStep_tous _ _ _ _ rfl,
      filterStep_tous _ _ _ _ rfl, filterStep_tous _ _ _ _ rfl]
  · intro h
    unfold apply_filters
    rw [filterStep_absent _ _ _ _ (h "Etat" (by decide)),
      filterStep_absent _ _ _ _ (h "Marque" (by decide)),
      filterStep_absent _ _ _ _ (h "Statut" (by decide)),
      filterStep_absent _ _ _ _ (h "Carburant" (by decide)),
      filterStep_absent _ _ _ _ (h "Transmission" (by decide)),
      filterStep_absent _ _ _ _ (h "Source" (by decide))]

/-- C10 witness: the all-"Tous" selection returns a concrete table
unchanged. -/
theorem C10_filters_witness :
    apply_filters ⟨["Source"], [[Cell.str "A"], [Cell.str "B"]]⟩ allTous =
      ⟨["Source"], [[Cell.str "A"], [Cell.str "B"]]⟩ :=
  (C10_filters ⟨["Source"], [[Cell.str "A"], [Cell.str "B"]]⟩ allTous).2.2.1 rfl

/-- C8 (cache, modelled from the spec): the first call fetches and
fills the slot; a second call within the freshness window returns the
first call's result with no network attempt, whatever the endpoint
would now do; once the window has expired, or after an explicit cache
clear, the next call performs a fresh fetch. -/
theorem C8_cache_window (t0 t1 : Nat) (o0 o1 : FetchOutcome) :
    (cachedLoadData emptyCache t0 o0).1 = load_data o0 ∧
    (cachedLoadData emptyCache t0 o0).2.2 = true ∧
    (t1 - t0 < CACHE_TTL →
      cachedLoadData (cachedLoadData emptyCache t0 o0).2.1 t1 o1 =
        (load_data o0, (cachedLoadData emptyCache t0 o0).2.1, false)) ∧
    (CACHE_TTL ≤ t1 - t0 →
      (cachedLoadData (cachedLoadData emptyCache t0 o0).2.1 t1 o1).1 =
          load_data o1 ∧
        (cachedLoadData (cachedLoadData emptyCache t0 o0).2.1 t1 o1).2.2 = true) ∧
    (cachedLoadData (clearCache (cachedLoadData emptyCache t0 o0).2.1) t1 o1).1 =
        load_data o1 ∧
    (cachedLoadData (clearCache (cachedLoadData emptyCache t0 o0).2.1) t1 o1).2.2 =
      true := by
  rw [cachedLoadData_empty t0 o0]
  refine ⟨rfl, rfl, ?_, ?_, rfl, rfl⟩
  · intro hf
    exact cachedLoadData_fresh t0 t1 (load_data o0) o1 hf
  · intro hst
    rw [cachedLoadData_stale t0 t1 (load_data o0) o1 (not_lt.mpr hst)]
    exact ⟨rfl, rfl⟩

/-- C8 witness: the spec's cache scenario — second call 10 units later
with the endpoint unreachable returns the first result, no fetch. -/
theorem C8_cache_window_witness :
    cachedLoadData
        (cachedLoadData emptyCache 0 (.response 200 (some (.arr [])))).2.1
        10 .connError =
      (load_data (.response 200 (some (.arr []))),
        (cachedLoadData emptyCache 0 (.response 200 (some (.arr [])))).2.1,
        false) :=
  (C8_cache_window 0 10 (.response 200 (some (.arr []))) .connError).2.2.1
    (by decide)

end Dash3
